import Mathlib

/-!
Verification development for the single-file serverless function in
`src/api/index.js` (the AI Content Strategy Engine).

The JavaScript code is shallowly embedded as pure Lean functions:

* Every external HTTP interaction is mediated by an `Env` oracle that maps the
  inputs of each outbound call to an abstract outcome.  The outcome types mirror
  exactly the distinctions the JavaScript code makes on the wire data: a thrown
  error (network failure, JSON parse failure, or a `TypeError` from accessing a
  field of a malformed object) is one constructor, a non-ok HTTP status is a
  separate constructor only for the call sites that actually check
  `response.ok`, and a successfully parsed body carries `Option`s for the
  optional-chained fields the code reads.
* Network effects are tracked explicitly: each adapter returns its value
  together with the list of outbound calls it performed (`NetCall`).
* The module-level mutable `redditToken` cache is threaded as an explicit
  `TokenState`; `Date.now()` becomes an explicit `now : Nat` (milliseconds).
* `Promise.all` over a mapped list is modelled by `fanOut`: per-item tasks
  complete in an arbitrary arrival order determined by a latency function, and
  the join re-keys each completion by its originating index — exactly the
  order-restoring behaviour of `Promise.all`.
-/

/-- A single normalized record: `{ title: ... }` as produced by every adapter. -/
structure TitleRecord where
  title : String
deriving DecidableEq, Repr

/-- One entry of the competitor branch: `{ channel, videos }` (line 189). -/
structure ChannelResult where
  channel : String
  videos : List TitleRecord
deriving DecidableEq, Repr

/-- One entry of the community branch: `{ subreddit, posts }` (line 191). -/
structure CommunityResult where
  subreddit : String
  posts : List TitleRecord
deriving DecidableEq, Repr

/-- The orchestrator output destructured on line 187:
`[topVideos, competitorVideosData, redditPostsData]`. -/
structure CollectedData where
  topVideos : List TitleRecord
  competitorVideosData : List ChannelResult
  redditPostsData : List CommunityResult
deriving DecidableEq, Repr

/-- An outbound network call, identified by its semantic inputs
(API keys and fixed limits are omitted: they are constant per request). -/
inductive NetCall
  | ytSearch (query : String)
  | ytChannelSearch (channelName : String)
  | ytChannelVideos (channelId : String)
  | redditTokenCall
  | redditHot (subreddit : String) (accessToken : String)
  | geminiCall (prompt : String)
deriving DecidableEq, Repr

/-- Outcome of the trend-search fetch in `searchYouTubeVideos` (lines 16-19).
`err` covers a thrown error at any point of the `try` block (fetch failure,
JSON failure, or malformed `item.snippet`); `notOk` is `!response.ok`;
`ok items` is a parsed body whose optional `items` array yields the given
title list (`data.items?.map(item => ...)`). -/
inductive SearchOutcome
  | err
  | notOk
  | ok (items : Option (List String))
deriving DecidableEq, Repr

/-- Outcome of the channel-resolution fetch in `getChannelVideos`
(line 37; note: this call site never checks `response.ok`).
`ok items` carries the optional `items` array as the list of
`items[i].id.channelId` values; a malformed element folds into `err`. -/
inductive ChanSearchOutcome
  | err
  | ok (items : Option (List String))
deriving DecidableEq, Repr

/-- Outcome of a plain `fetch(...).then(res => res.json())` listing call that
extracts an optional-chained title array (`getChannelVideos` second call,
line 47, and `getSubredditPosts`, line 115). -/
inductive ListingOutcome
  | err
  | ok (titles : Option (List String))
deriving DecidableEq, Repr

/-- Outcome of the Reddit credential-exchange fetch (line 83).
`ok field` is a parsed body whose `access_token` field is the given
optional string (absent models a missing field). -/
inductive TokenOutcome
  | err
  | ok (field : Option String)
deriving DecidableEq, Repr

/-- Outcome of the Gemini fetch (lines 143-147). `ok none` models an envelope
on which `data.candidates[0].content.parts[0].text` throws. -/
inductive GeminiOutcome
  | err
  | notOk
  | ok (text : Option String)
deriving DecidableEq, Repr

/-- The external world: one response function per outbound endpoint, the
per-item completion latencies of the two fan-out branches, and the current
time in milliseconds (`Date.now()`). -/
structure Env where
  search : String → SearchOutcome
  chanSearch : String → ChanSearchOutcome
  chanVideos : String → ListingOutcome
  token : TokenOutcome
  hot : String → String → ListingOutcome
  gemini : String → GeminiOutcome
  chanLat : Nat → Nat
  subLat : Nat → Nat
  now : Nat

/-- The module-level cache `let redditToken = { value: null, expires: 0 }`
(line 57), threaded explicitly. -/
structure TokenState where
  value : Option String
  expires : Nat
deriving DecidableEq, Repr

/-- The initial cache state at process start. -/
def initialTokenState : TokenState := ⟨none, 0⟩

/-- JavaScript truthiness of a nullable string: `null`/absent and `""` are
falsy, every other string is truthy. -/
def truthyOpt : Option String → Bool
  | none => false
  | some s => s ≠ ""

/-- Embeds `searchYouTubeVideos` (lines 13-24): one search call; any error or non-ok
status degrades to `[]`; `data.items?.map(...) || []` extracts titles. -/
def searchYouTubeVideos (env : Env) (query : String) :
    List TitleRecord × List NetCall :=
  ( match env.search query with
    | .err => []
    | .notOk => []
    | .ok none => []
    | .ok (some ts) => ts.map TitleRecord.mk,
    [NetCall.ytSearch query] )

/-- Embeds `getChannelVideos` (lines 33-54): resolve the channel name (first match
only), then list that channel id; `!items || items.length === 0` returns `[]`
after one call; any thrown error at either step degrades to `[]`. -/
def getChannelVideos (env : Env) (channelName : String) :
    List TitleRecord × List NetCall :=
  match env.chanSearch channelName with
  | .err => ([], [NetCall.ytChannelSearch channelName])
  | .ok none => ([], [NetCall.ytChannelSearch channelName])
  | .ok (some []) => ([], [NetCall.ytChannelSearch channelName])
  | .ok (some (cid :: _)) =>
    match env.chanVideos cid with
    | .err => ([], [NetCall.ytChannelSearch channelName,
                    NetCall.ytChannelVideos cid])
    | .ok none => ([], [NetCall.ytChannelSearch channelName,
                        NetCall.ytChannelVideos cid])
    | .ok (some ts) => (ts.map TitleRecord.mk,
                        [NetCall.ytChannelSearch channelName,
                         NetCall.ytChannelVideos cid])

/-- Embeds `getRedditAccessToken` (lines 65-96).  Cache hit requires a truthy cached
value and `redditToken.expires > Date.now()`; otherwise one credential call
is made, and `!response.access_token` (absent or empty token) throws into the
catch, returning `null` without touching the cache.  On success the cache is
overwritten with expiry `now + 50 minutes`. -/
def getRedditAccessToken (st : TokenState) (now : Nat) (o : TokenOutcome) :
    Option String × TokenState × List NetCall :=
  if truthyOpt st.value ∧ now < st.expires then
    (st.value, st, [])
  else
    match o with
    | .err => (none, st, [NetCall.redditTokenCall])
    | .ok field =>
      if truthyOpt field then
        (field, ⟨field, now + 50 * 60 * 1000⟩, [NetCall.redditTokenCall])
      else
        (none, st, [NetCall.redditTokenCall])

/-- Embeds `getSubredditPosts` (lines 105-121): one hot-listing call with the bearer
token; `response.data?.children?.map(...) || []` extracts titles; any thrown
error degrades to `[]`. -/
def getSubredditPosts (env : Env) (subreddit accessToken : String) :
    List TitleRecord × List NetCall :=
  ( match env.hot subreddit accessToken with
    | .err => []
    | .ok none => []
    | .ok (some ts) => ts.map TitleRecord.mk,
    [NetCall.redditHot subreddit accessToken] )

/-- The message of the error rethrown by `callGeminiAPI` (line 150). -/
def geminiFailureMessage : String :=
  "Failed to get a valid response from the Gemini API."

/-- Embeds `callGeminiAPI` (lines 129-152): non-ok status, fetch/JSON failure, or a
malformed envelope all rethrow a generation error; otherwise the extracted
text is returned. -/
def callGeminiAPI (env : Env) (prompt : String) :
    Except String String × List NetCall :=
  ( match env.gemini prompt with
    | .err => .error geminiFailureMessage
    | .notOk => .error geminiFailureMessage
    | .ok none => .error geminiFailureMessage
    | .ok (some t) => .ok t,
    [NetCall.geminiCall prompt] )

/-!
## The `Promise.all` fan-out model

`insertBy`/`sortBy` order the item indices by a latency function (the arrival
order of the concurrent per-item calls); `fanOut` then rebuilds the output by
looking each originating index up among the tagged completions, exactly as
`Promise.all` keys results by position rather than by arrival order.
-/

def insertBy {A : Type} (le : A → A → Bool) (a : A) : List A → List A
  | [] => [a]
  | b :: t => if le a b then a :: b :: t else b :: insertBy le a t

def sortBy {A : Type} (le : A → A → Bool) : List A → List A
  | [] => []
  | a :: t => insertBy le a (sortBy le t)

/-- Run `n` indexed tasks concurrently; completions arrive in latency order,
each tagged with its originating index, and the join restores input order. -/
def fanOut {A : Type} (lat : Nat → Nat) (run : Nat → A) (n : Nat) : List A :=
  let order := sortBy (fun i j => Nat.ble (lat i) (lat j)) (List.range n)
  let completions := order.map (fun i => (i, run i))
  (List.range n).filterMap (fun i => completions.lookup i)

/-- Fan-out over a list of request keys (channels / subreddits). -/
def fanOutL {A : Type} (lat : Nat → Nat) (run : String → A)
    (items : List String) : List A :=
  fanOut lat (fun i => run (items.getD i "")) items.length

theorem mem_insertBy {A : Type} (le : A → A → Bool) (a x : A) (l : List A) :
    x ∈ insertBy le a l ↔ x = a ∨ x ∈ l := by
  induction l with
  | nil => simp [insertBy]
  | cons b t ih =>
    by_cases h : le a b
    · simp [insertBy, h]
    · simp [insertBy, h, ih]
      tauto

theorem mem_sortBy {A : Type} (le : A → A → Bool) (x : A) (l : List A) :
    x ∈ sortBy le l ↔ x ∈ l := by
  induction l with
  | nil => simp [sortBy]
  | cons a t ih => simp [sortBy, mem_insertBy, ih]

theorem lookup_map_pair {A : Type} (f : Nat → A) (l : List Nat) (i : Nat)
    (h : i ∈ l) : (l.map (fun j => (j, f j))).lookup i = some (f i) := by
  induction l with
  | nil => cases h
  | cons j t ih =>
    by_cases hj : j = i
    · subst hj
      simp [List.lookup]
    · rcases List.mem_cons.mp h with h1 | h2
      · exact absurd h1.symm hj
      · have hb : (i == j) = false :=
          beq_eq_false_iff_ne.mpr (fun h => hj h.symm)
        simp [List.lookup, hb, ih h2]

theorem filterMap_eq_map_of_forall {A : Type} (g : Nat → Option A)
    (f : Nat → A) (l : List Nat) (h : ∀ i ∈ l, g i = some (f i)) :
    l.filterMap g = l.map f := by
  induction l with
  | nil => rfl
  | cons j t ih =>
    rw [List.filterMap_cons, h j (List.mem_cons_self j t), List.map_cons,
      ih (fun i hi => h i (List.mem_cons_of_mem j hi))]

/-- Order restoration of `Promise.all`: whatever the per-item latencies, the
joined output lists the task results in input-index order. -/
theorem fanOut_eq_map {A : Type} (lat : Nat → Nat) (run : Nat → A) (n : Nat) :
    fanOut lat run n = (List.range n).map run := by
  unfold fanOut
  apply filterMap_eq_map_of_forall
  intro i hi
  apply lookup_map_pair
  exact (mem_sortBy _ i _).mpr hi

theorem map_getD_range {A : Type} (d : A) (l : List A) :
    (List.range l.length).map (fun i => l.getD i d) = l := by
  induction l with
  | nil => rfl
  | cons a t ih =>
    rw [List.length_cons, List.range_succ_eq_map, List.map_cons,
      List.map_map]
    simp only [List.map_map, Function.comp_def, Nat.succ_eq_add_one,
      List.getD_cons_zero, List.getD_cons_succ]
    rw [ih]

theorem fanOutL_eq_map {A : Type} (lat : Nat → Nat) (run : String → A)
    (items : List String) : fanOutL lat run items = items.map run := by
  unfold fanOutL
  rw [fanOut_eq_map]
  have h := map_getD_range "" items
  calc (List.range items.length).map (fun i => run (items.getD i ""))
      = ((List.range items.length).map (fun i => items.getD i "")).map run := by
        rw [List.map_map]; rfl
    _ = items.map run := by rw [h]

/-!
## Collection orchestrator (lines 187-193)
-/

/-- The competitor branch (line 189):
`Promise.all(competitorYouTubeChannels.map(channel => getChannelVideos(...)
.then(videos => ({ channel, videos }))))`.  Per-item calls are launched in
input order; results are joined by originating channel. -/
def channelBranch (env : Env) (channels : List String) :
    List ChannelResult × List NetCall :=
  (fanOutL env.chanLat
     (fun c => ChannelResult.mk c (getChannelVideos env c).1) channels,
   (channels.map (fun c => (getChannelVideos env c).2)).flatten)

/-- The community branch (lines 190-192): acquire a token first; the per-item
fan-out over `relevantSubreddits` happens only when the token is truthy
(`token ? Promise.all(...) : []`). -/
def communityBranch (env : Env) (subs : List String) (st : TokenState) :
    List CommunityResult × TokenState × List NetCall :=
  match getRedditAccessToken st env.now env.token with
  | (some t, st2, tcalls) =>
    if t = "" then ([], st2, tcalls)
    else (fanOutL env.subLat
            (fun s => CommunityResult.mk s (getSubredditPosts env s t).1) subs,
          st2,
          tcalls ++ (subs.map (fun s => (getSubredditPosts env s t).2)).flatten)
  | (none, st2, tcalls) => ([], st2, tcalls)

/-- The Phase-1 orchestrator: the outer `Promise.all` of lines 187-193.
Returns the `CollectedData`, the cache state after the request, and every
outbound call performed during collection. -/
def collect (env : Env) (audience goal : String)
    (channels subs : List String) (st : TokenState) :
    CollectedData × TokenState × List NetCall :=
  let top := searchYouTubeVideos env (audience ++ " " ++ goal)
  let chan := channelBranch env channels
  let comm := communityBranch env subs st
  (CollectedData.mk top.1 chan.1 comm.1, comm.2.1, top.2 ++ chan.2 ++ comm.2.2)

/-!
## Prompt assembler (lines 195-233)
-/

/-- JavaScript `Array.prototype.join(sep)`. -/
def joinSep (sep : String) : List String → String
  | [] => ""
  | [s] => s
  | s :: rest => s ++ sep ++ joinSep sep rest

/-- Line 198: `topVideos.map(v => v.title).join(', ')`. -/
def topVideoTitles (tops : List TitleRecord) : String :=
  joinSep ", " (tops.map TitleRecord.title)

/-- One group of line 199: `` `${c.channel}: ${c.videos.map(v => v.title).join(', ')}` ``. -/
def renderChannelGroup (c : ChannelResult) : String :=
  c.channel ++ ": " ++ joinSep ", " (c.videos.map TitleRecord.title)

/-- Line 199: per-channel groups joined with `' | '`. -/
def competitorVideoTitles (chans : List ChannelResult) : String :=
  joinSep " | " (chans.map renderChannelGroup)

/-- One group of line 200: `` `r/${s.subreddit}: ${s.posts.map(p => p.title).join(', ')}` ``. -/
def renderCommunityGroup (s : CommunityResult) : String :=
  "r/" ++ s.subreddit ++ ": " ++ joinSep ", " (s.posts.map TitleRecord.title)

/-- Line 200: per-community groups joined with `' | '`. -/
def redditPostTitles (comms : List CommunityResult) : String :=
  joinSep " | " (comms.map renderCommunityGroup)

/-- JavaScript `s || "N/A"` on a string: the placeholder replaces exactly the
empty (falsy) string. -/
def orNA (s : String) : String :=
  if s = "" then "N/A" else s

/-- The `Top YouTube Videos` field of the prompt (line 210). -/
def topField (tops : List TitleRecord) : String :=
  orNA (topVideoTitles tops)

/-- The `Competitor YouTube Videos` field of the prompt (line 211). -/
def competitorField (chans : List ChannelResult) : String :=
  orNA (competitorVideoTitles chans)

/-- The `Top Reddit Posts` field of the prompt (line 212). -/
def communityField (comms : List CommunityResult) : String :=
  orNA (redditPostTitles comms)

/-- Total number of collected `TitleRecord`s in the competitor category. -/
def competitorTitleCount (chans : List ChannelResult) : Nat :=
  (chans.map (fun c => c.videos.length)).sum

/-- Total number of collected `TitleRecord`s in the community category. -/
def communityTitleCount (comms : List CommunityResult) : Nat :=
  (comms.map (fun s => s.posts.length)).sum

/-- Prompt text before the audience interpolation (lines 202-206). -/
def promptSeg1 : String :=
  "\nYou are a world-class content strategist and data analyst. I have gathered real-time data from YouTube and Reddit for a client. Your task is to generate a complete content strategy based on this data and your own expert knowledge.\n\nClient Details:\n- Target Audience: "

/-- Prompt text between audience and goal (line 207). -/
def promptSeg2 : String := "\n- Primary Goal: "

/-- Prompt text between goal and the top-videos field (lines 209-210). -/
def promptSeg3 : String := "\n\nLive Data Collected:\n- Top YouTube Videos: "

/-- Prompt text before the competitor field (line 211). -/
def promptSeg4 : String := "\n- Competitor YouTube Videos: "

/-- Prompt text before the community field (line 212). -/
def promptSeg5 : String := "\n- Top Reddit Posts: "

/-- The fixed tail of the prompt: the JSON output contract (lines 214-233). -/
def promptSeg6 : String :=
  "\n\nBased on all of this, provide a response in a single JSON object with the following four keys: \"trendDiscovery\", \"contentAnalysis\", \"competitorReport\", \"strategyCalendar\".\n\n1.  \"trendDiscovery\": An object containing trend analysis from four key platforms.\n    - \"youtubeTrends\": Analyze the provided YouTube data to identify 3-5 key trends.\n    - \"redditTrends\": Analyze the provided Reddit data to identify 3-5 key community topics and sentiments.\n    - \"simulatedXTrends\": Act as an expert on X (Twitter). Based on your knowledge, simulate the top 3-5 trending topics and content formats (e.g., threads, memes) relevant to the target audience on X right now.\n    - \"simulatedGoogleTrends\": Act as an expert search analyst. Based on your knowledge, simulate the top 3-5 rising search queries on Google Trends relevant to the target audience.\n\n2.  \"contentAnalysis\": An object that deconstructs what makes high-performing content successful.\n    - \"winningFormats\": Identify the most effective content formats (e.g., YouTube Shorts, long-form video) based on all available data.\n    - \"toneOfVoice\": Describe the most successful tone of voice (e.g., \x27humorous and informal\x27, \x27educational and authoritative\x27).\n    - \"engagementTriggers\": List common engagement triggers found in the content (e.g., \x27asking a direct question\x27, \x27hosting a challenge\x27).\n    - \"optimalTiming\": Suggest the best days and times to post, providing a rationale.\n\n3.  \"competitorReport\": An object analyzing the specified competitors.\n    - \"youtubeCompetitorAnalysis\": Analyze the provided competitor YouTube video titles. Summarize their content strategy, topic focus, and posting frequency.\n    - \"inferredXStrategy\": Based on their known strategy, infer what their strategy on X would likely be.\n\n4.  \"strategyCalendar\": An array of 30 objects, representing a full 30-day content plan. Each object in the array must have the following structure: \x7b \"day\": number, \"platform\": \"YouTube/Instagram/Reddit\", \"title\": \"A catchy, fully-formed content title\", \"format\": \"e.g., YouTube Short, IG Reel, Reddit Thread\", \"description\": \"A 1-2 sentence description of the content piece.\" \x7d\n"

/-- The assembled master prompt (lines 202-233): the template literal with the
three data fields inserted through the `|| \"N/A\"` fallback. -/
def masterPrompt (audience goal : String) (d : CollectedData) : String :=
  promptSeg1 ++ audience ++ promptSeg2 ++ goal ++ promptSeg3
    ++ topField d.topVideos
    ++ promptSeg4 ++ competitorField d.competitorVideosData
    ++ promptSeg5 ++ communityField d.redditPostsData
    ++ promptSeg6

/-!
## HTTP handler (lines 156-248)
-/

/-- A JSON value in a request-body field, restricted to the shapes the
handler distinguishes (absent/string/array of strings). -/
inductive JVal
  | absent
  | str (s : String)
  | arr (l : List String)
deriving DecidableEq, Repr

/-- JavaScript truthiness of a body field: absent and `""` are falsy;
arrays are always truthy. -/
def truthy : JVal → Bool
  | .absent => false
  | .str s => s ≠ ""
  | .arr _ => true

/-- Embeds `Array.isArray`. -/
def isArray : JVal → Bool
  | .arr _ => true
  | _ => false

/-- The list carried by an array field (only read after `isArray` passes). -/
def asArr : JVal → List String
  | .arr l => l
  | _ => []

/-- JavaScript string interpolation of a body field (`${audience}`):
arrays stringify as their comma-join, absent as `undefined`. -/
def jsToString : JVal → String
  | .absent => "undefined"
  | .str s => s
  | .arr l => joinSep "," l

/-- The destructured request body (line 171). -/
structure ReqBody where
  audience : JVal
  goal : JVal
  competitorYouTubeChannels : JVal
  relevantSubreddits : JVal
deriving DecidableEq, Repr

/-- Embeds the destructuring default of line 171: an absent `req.body` destructures to all-absent fields. -/
def emptyBody : ReqBody := ⟨.absent, .absent, .absent, .absent⟩

/-- The validation predicate of line 174 (negated): all four checks pass. -/
def validBody (b : ReqBody) : Bool :=
  truthy b.audience && truthy b.goal
    && isArray b.competitorYouTubeChannels && isArray b.relevantSubreddits

/-- The four environment credentials destructured on line 178; absent or
empty values are falsy. -/
structure EnvVars where
  youtubeApiKey : Option String
  redditClientId : Option String
  redditClientSecret : Option String
  geminiApiKey : Option String
deriving DecidableEq, Repr

/-- The configuration check of line 179 (negated): all four credentials
are truthy. -/
def envConfigured (ev : EnvVars) : Bool :=
  truthyOpt ev.youtubeApiKey && truthyOpt ev.redditClientId
    && truthyOpt ev.redditClientSecret && truthyOpt ev.geminiApiKey

/-- HTTP request method as the handler distinguishes it. -/
inductive Method
  | options
  | post
  | other
deriving DecidableEq, Repr

/-- The handler's response, as set through `res.status(...)`. -/
inductive HandlerResponse
  | noContent204
  | methodNotAllowed405 (error : String)
  | badRequest400 (error : String)
  | configError500 (error : String)
  | internalError500 (error : String) (details : String)
  | ok200 (body : String)
deriving DecidableEq, Repr

/-- The serverless handler `module.exports` (lines 156-248): method gate,
validation, configuration check, data collection, prompt assembly, generation,
and the catch-all that converts a thrown generation error into a 500 with
`details = error.message`.  Returns the response, the cache state after the
request, and every outbound call performed. -/
def handler (method : Method) (body : Option ReqBody) (ev : EnvVars)
    (env : Env) (st : TokenState) :
    HandlerResponse × TokenState × List NetCall :=
  match method with
  | .options => (.noContent204, st, [])
  | .other => (.methodNotAllowed405 "Method Not Allowed", st, [])
  | .post =>
    let b := body.getD emptyBody
    if validBody b then
      if envConfigured ev then
        let audience := jsToString b.audience
        let goal := jsToString b.goal
        let r := collect env audience goal
          (asArr b.competitorYouTubeChannels) (asArr b.relevantSubreddits) st
        let prompt := masterPrompt audience goal r.1
        let g := callGeminiAPI env prompt
        match g.1 with
        | .ok text => (.ok200 text, r.2.1, r.2.2 ++ g.2)
        | .error msg =>
          (.internalError500 "An internal server error occurred." msg,
           r.2.1, r.2.2 ++ g.2)
      else
        (.configError500 "Server configuration error.", st, [])
    else
      (.badRequest400
        "Invalid request body. Ensure all required fields are present.",
       st, [])

/-!
## Shared fixtures and helper lemmas
-/

/-- An environment in which every external call fails. -/
def envAllErr : Env :=
  { search := fun _ => .err
    chanSearch := fun _ => .err
    chanVideos := fun _ => .err
    token := .err
    hot := fun _ _ => .err
    gemini := fun _ => .err
    chanLat := fun _ => 0
    subLat := fun _ => 0
    now := 0 }

/-- An environment in which every external call succeeds. -/
def envAllOk : Env :=
  { search := fun _ => SearchOutcome.ok (some ["t1"])
    chanSearch := fun _ => ChanSearchOutcome.ok (some ["cid1"])
    chanVideos := fun _ => ListingOutcome.ok (some ["v1"])
    token := TokenOutcome.ok (some "tok1")
    hot := fun _ _ => ListingOutcome.ok (some ["p1"])
    gemini := fun _ => GeminiOutcome.ok (some "strategy")
    chanLat := fun _ => 0
    subLat := fun _ => 0
    now := 0 }

/-- Like `envAllOk`, but the credential exchange fails. -/
def envTokenFail : Env := { envAllOk with token := .err }

/-- Like `envAllOk`, but the generative call fails. -/
def envGeminiFail : Env := { envAllOk with gemini := fun _ => .err }

/-- A fully configured set of environment credentials. -/
def evOk : EnvVars := ⟨some "yk", some "rid", some "rsec", some "gk"⟩

/-- A well-formed request body. -/
def bodyOk : ReqBody := ⟨.str "aud", .str "goal", .arr [], .arr []⟩

theorem collect_topVideos (env : Env) (a g : String) (chans subs : List String)
    (st : TokenState) :
    (collect env a g chans subs st).1.topVideos =
      (searchYouTubeVideos env (a ++ " " ++ g)).1 := rfl

theorem collect_competitor (env : Env) (a g : String) (chans subs : List String)
    (st : TokenState) :
    (collect env a g chans subs st).1.competitorVideosData =
      (channelBranch env chans).1 := rfl

theorem collect_community (env : Env) (a g : String) (chans subs : List String)
    (st : TokenState) :
    (collect env a g chans subs st).1.redditPostsData =
      (communityBranch env subs st).1 := rfl

theorem collect_calls (env : Env) (a g : String) (chans subs : List String)
    (st : TokenState) :
    (collect env a g chans subs st).2.2 =
      (searchYouTubeVideos env (a ++ " " ++ g)).2 ++ (channelBranch env chans).2
        ++ (communityBranch env subs st).2.2 := rfl

theorem getRedditAccessToken_hit (st : TokenState) (now : Nat) (o : TokenOutcome)
    (h : truthyOpt st.value = true ∧ now < st.expires) :
    getRedditAccessToken st now o = (st.value, st, []) := by
  unfold getRedditAccessToken
  rw [if_pos h]

theorem getRedditAccessToken_calls (st : TokenState) (now : Nat) (o : TokenOutcome) :
    (getRedditAccessToken st now o).2.2 = [] ∨
    (getRedditAccessToken st now o).2.2 = [NetCall.redditTokenCall] := by
  unfold getRedditAccessToken
  split
  · left; rfl
  · cases o with
    | err => right; rfl
    | ok field =>
      dsimp only
      split
      · right; rfl
      · right; rfl

theorem getRedditAccessToken_some_ne_empty (st : TokenState) (now : Nat)
    (o : TokenOutcome) (t : String)
    (h : (getRedditAccessToken st now o).1 = some t) : t ≠ "" := by
  unfold getRedditAccessToken at h
  by_cases hc : truthyOpt st.value = true ∧ now < st.expires
  · rw [if_pos hc] at h
    rcases hc with ⟨hv, _⟩
    cases hval : st.value with
    | none => rw [hval] at h; cases h
    | some s =>
      rw [hval] at h hv
      simp [truthyOpt] at hv
      cases h
      exact hv
  · rw [if_neg hc] at h
    cases o with
    | err => cases h
    | ok field =>
      dsimp only at h
      by_cases hf : truthyOpt field = true
      · rw [if_pos hf] at h
        cases field with
        | none => cases h
        | some s =>
          simp [truthyOpt] at hf
          cases h
          exact hf
      · rw [if_neg hf] at h
        cases h

theorem redditHot_not_mem_getChannelVideos (env : Env) (c s t : String) :
    NetCall.redditHot s t ∉ (getChannelVideos env c).2 := by
  unfold getChannelVideos
  cases h : env.chanSearch c with
  | err => simp
  | ok items =>
    cases items with
    | none => simp
    | some l =>
      cases l with
      | nil => simp
      | cons cid rest =>
        cases h2 : env.chanVideos cid with
        | err => simp [h2]
        | ok ts => cases ts <;> simp [h2]

theorem length_le_joinSep_cons (sep s : String) (rest : List String) :
    s.length ≤ (joinSep sep (s :: rest)).length := by
  cases rest with
  | nil => simp [joinSep]
  | cons b t =>
    show s.length ≤ (s ++ sep ++ joinSep sep (b :: t)).length
    rw [String.length_append, String.length_append]
    omega

theorem two_le_renderChannelGroup_length (c : ChannelResult) :
    2 ≤ (renderChannelGroup c).length := by
  unfold renderChannelGroup
  rw [String.length_append, String.length_append]
  have h : (": ").length = 2 := rfl
  omega

theorem two_le_renderCommunityGroup_length (s : CommunityResult) :
    2 ≤ (renderCommunityGroup s).length := by
  unfold renderCommunityGroup
  rw [String.length_append, String.length_append, String.length_append]
  have h : (": ").length = 2 := rfl
  omega

theorem competitorVideoTitles_ne_empty (c : ChannelResult)
    (cs : List ChannelResult) : competitorVideoTitles (c :: cs) ≠ "" := by
  intro h
  have h1 : 2 ≤ (renderChannelGroup c).length := two_le_renderChannelGroup_length c
  have h2 : (renderChannelGroup c).length ≤ (competitorVideoTitles (c :: cs)).length := by
    unfold competitorVideoTitles
    rw [List.map_cons]
    exact length_le_joinSep_cons " | " (renderChannelGroup c) (cs.map renderChannelGroup)
  rw [h] at h2
  have h3 : ("" : String).length = 0 := rfl
  omega

theorem redditPostTitles_ne_empty (c : CommunityResult)
    (cs : List CommunityResult) : redditPostTitles (c :: cs) ≠ "" := by
  intro h
  have h1 : 2 ≤ (renderCommunityGroup c).length := two_le_renderCommunityGroup_length c
  have h2 : (renderCommunityGroup c).length ≤ (redditPostTitles (c :: cs)).length := by
    unfold redditPostTitles
    rw [List.map_cons]
    exact length_le_joinSep_cons " | " (renderCommunityGroup c) (cs.map renderCommunityGroup)
  rw [h] at h2
  have h3 : ("" : String).length = 0 := rfl
  omega

/-!
## Claim C1
-/

/-- C1 (counterexample): a competitor category holding one channel entry with
an empty video list has zero collected `TitleRecord`s, yet its prompt field
renders as `"ChannelA: "` — a blank joined-title field — and not as the
placeholder `"N/A"`, contradicting the claim that every data category with
zero collected records (in particular every group with an empty `TitleRecord`
sequence) renders the placeholder. -/
theorem C1_counterexample :
    competitorTitleCount [ChannelResult.mk "ChannelA" []] = 0 ∧
    competitorField [ChannelResult.mk "ChannelA" []] = "ChannelA: " ∧
    competitorField [ChannelResult.mk "ChannelA" []] ≠ "N/A" := by
  refine ⟨rfl, by decide, by decide⟩

/-- C1 (amended): the placeholder substitution happens exactly when the
joined category string is empty.  The top-videos field renders `"N/A"` when
its record list is empty; the competitor and community fields render `"N/A"`
when their group list is empty, and otherwise render the group string
verbatim — so a group entry with an empty `TitleRecord` sequence contributes
`"<name>: "` with a blank joined-title field, not the placeholder. -/
theorem C1_amended (tops : List TitleRecord) (chans : List ChannelResult)
    (comms : List CommunityResult) :
    (tops = [] → topField tops = "N/A") ∧
    (chans = [] → competitorField chans = "N/A") ∧
    (comms = [] → communityField comms = "N/A") ∧
    (chans ≠ [] → competitorField chans = competitorVideoTitles chans) ∧
    (comms ≠ [] → communityField comms = redditPostTitles comms) ∧
    (∀ name, competitorField [ChannelResult.mk name []] = name ++ ": ") ∧
    (∀ name, communityField [CommunityResult.mk name []] = "r/" ++ name ++ ": ") := by
  refine ⟨?_, ?_, ?_, ?_, ?_, ?_, ?_⟩
  · intro h; subst h; rfl
  · intro h; subst h; rfl
  · intro h; subst h; rfl
  · intro h
    cases chans with
    | nil => exact absurd rfl h
    | cons c cs =>
      unfold competitorField orNA
      rw [if_neg (competitorVideoTitles_ne_empty c cs)]
  · intro h
    cases comms with
    | nil => exact absurd rfl h
    | cons c cs =>
      unfold communityField orNA
      rw [if_neg (redditPostTitles_ne_empty c cs)]
  · intro name
    unfold competitorField orNA
    rw [if_neg (competitorVideoTitles_ne_empty (ChannelResult.mk name []) [])]
    show joinSep " | " [renderChannelGroup (ChannelResult.mk name [])] = name ++ ": "
    show renderChannelGroup (ChannelResult.mk name []) = name ++ ": "
    unfold renderChannelGroup
    show name ++ ": " ++ joinSep ", " [] = name ++ ": "
    show name ++ ": " ++ "" = name ++ ": "
    exact String.append_empty _
  · intro name
    unfold communityField orNA
    rw [if_neg (redditPostTitles_ne_empty (CommunityResult.mk name []) [])]
    show joinSep " | " [renderCommunityGroup (CommunityResult.mk name [])] = "r/" ++ name ++ ": "
    show renderCommunityGroup (CommunityResult.mk name []) = "r/" ++ name ++ ": "
    unfold renderCommunityGroup
    show "r/" ++ name ++ ": " ++ joinSep ", " [] = "r/" ++ name ++ ": "
    show "r/" ++ name ++ ": " ++ "" = "r/" ++ name ++ ": "
    exact String.append_empty _

/-- Witness for C1 (amended) at concrete inputs. -/
theorem C1_amended_witness :
    topField [] = "N/A" ∧
    competitorField [] = "N/A" ∧
    competitorField [ChannelResult.mk "ChannelB" []] = "ChannelB" ++ ": " := by
  refine ⟨(C1_amended [] [] []).1 rfl, (C1_amended [] [] []).2.1 rfl,
    (C1_amended [] [ChannelResult.mk "ChannelB" []] []).2.2.2.2.2.1 "ChannelB"⟩

/-!
## Claim C2
-/

/-- C2 (counterexample): with an empty `relevantSubreddits` list and a cold
credential cache, the community branch of lines 190-192 still performs the
credential-exchange network call, so it does not perform zero network calls
as the claim states. -/
theorem C2_counterexample :
    (communityBranch envAllOk [] initialTokenState).2.2 =
      [NetCall.redditTokenCall] ∧
    (communityBranch envAllOk [] initialTokenState).2.2 ≠ [] := by
  refine ⟨by decide, by decide⟩

/-- C2 (amended): an empty `competitorYouTubeChannels` list yields an empty
`ChannelResult` sequence with zero channel-branch calls; an empty
`relevantSubreddits` list yields an empty `CommunityResult` sequence and no
community-listing calls, but the credential-exchange call is still performed
whenever the cache holds no valid token (with a valid cached token the branch
makes no call at all). -/
theorem C2_amended (env : Env) (st : TokenState) :
    channelBranch env [] = ([], []) ∧
    (communityBranch env [] st).1 = [] ∧
    (∀ c ∈ (communityBranch env [] st).2.2, c = NetCall.redditTokenCall) ∧
    (truthyOpt st.value = true ∧ env.now < st.expires →
      (communityBranch env [] st).2.2 = []) := by
  refine ⟨rfl, ?_, ?_, ?_⟩
  · rcases hr : getRedditAccessToken st env.now env.token with ⟨tok, st2, tcalls⟩
    cases tok with
    | none => simp [communityBranch, hr]
    | some t =>
      by_cases ht : t = ""
      · simp [communityBranch, hr, ht]
      · simp [communityBranch, hr, ht]
        rfl
  · intro c hc
    have hcalls := getRedditAccessToken_calls st env.now env.token
    rcases hr : getRedditAccessToken st env.now env.token with ⟨tok, st2, tcalls⟩
    rw [hr] at hcalls
    simp only at hcalls
    cases tok with
    | none =>
      simp [communityBranch, hr] at hc
      rcases hcalls with h | h
      · rw [h] at hc; cases hc
      · rw [h] at hc; simpa using hc
    | some t =>
      by_cases ht : t = ""
      · simp [communityBranch, hr, ht] at hc
        rcases hcalls with h | h
        · rw [h] at hc; cases hc
        · rw [h] at hc; simpa using hc
      · simp [communityBranch, hr, ht] at hc
        rcases hcalls with h | h
        · rw [h] at hc; simp at hc
        · rw [h] at hc; simpa using hc
  · intro hhit
    have hr := getRedditAccessToken_hit st env.now env.token hhit
    rcases hv : st.value with _ | s
    · rw [hv] at hhit; simp [truthyOpt] at hhit
    · have hs : s ≠ "" := by
        have := hhit.1
        rw [hv] at this
        simpa [truthyOpt] using this
      rw [hv] at hr
      simp [communityBranch, hr, hs]

/-- Witness for C2 (amended) at concrete inputs. -/
theorem C2_amended_witness :
    channelBranch envAllOk [] = ([], []) ∧
    (communityBranch envAllOk [] initialTokenState).1 = [] ∧
    NetCall.redditTokenCall = NetCall.redditTokenCall ∧
    (communityBranch envAllOk [] (TokenState.mk (some "tok") 5)).2.2 = [] := by
  refine ⟨(C2_amended envAllOk initialTokenState).1,
    (C2_amended envAllOk initialTokenState).2.1,
    (C2_amended envAllOk initialTokenState).2.2.1 NetCall.redditTokenCall (by decide),
    (C2_amended envAllOk (TokenState.mk (some "tok") 5)).2.2.2 (by decide)⟩

/-!
## Claim C3
-/

/-- C3: fault isolation of the data-collection phase.  Each adapter whose
outcome is an error yields its empty/absent fallback (the adapters are total
functions: no exception crosses the orchestrator boundary, and `collect`
always returns a `CollectedData`); and each category of the collected data
depends only on its own branch's outcomes, so one adapter's failure cannot
change what any other adapter contributes. -/
theorem C3 (e1 e2 : Env) (st : TokenState) (a g : String)
    (chans subs : List String) :
    (∀ q, e1.search q = .err → (searchYouTubeVideos e1 q).1 = []) ∧
    (∀ c, e1.chanSearch c = .err → (getChannelVideos e1 c).1 = []) ∧
    (∀ s t, e1.hot s t = .err → (getSubredditPosts e1 s t).1 = []) ∧
    (e1.token = .err → ¬(truthyOpt st.value = true ∧ e1.now < st.expires) →
      (getRedditAccessToken st e1.now e1.token).1 = none) ∧
    (e1.search = e2.search →
      (collect e1 a g chans subs st).1.topVideos =
        (collect e2 a g chans subs st).1.topVideos) ∧
    (e1.chanSearch = e2.chanSearch → e1.chanVideos = e2.chanVideos →
      e1.chanLat = e2.chanLat →
      (collect e1 a g chans subs st).1.competitorVideosData =
        (collect e2 a g chans subs st).1.competitorVideosData) ∧
    (e1.token = e2.token → e1.hot = e2.hot → e1.subLat = e2.subLat →
      e1.now = e2.now →
      (collect e1 a g chans subs st).1.redditPostsData =
        (collect e2 a g chans subs st).1.redditPostsData) := by
  refine ⟨?_, ?_, ?_, ?_, ?_, ?_, ?_⟩
  · intro q h; simp [searchYouTubeVideos, h]
  · intro c h; simp [getChannelVideos, h]
  · intro s t h; simp [getSubredditPosts, h]
  · intro h hmiss
    unfold getRedditAccessToken
    rw [if_neg hmiss, h]
  · intro h
    rw [collect_topVideos, collect_topVideos]
    simp only [searchYouTubeVideos, h]
  · intro h1 h2 h3
    rw [collect_competitor, collect_competitor]
    simp only [channelBranch, getChannelVideos, fanOutL, fanOut, h1, h2, h3]
  · intro h1 h2 h3 h4
    rw [collect_community, collect_community]
    simp only [communityBranch, getRedditAccessToken, getSubredditPosts,
      fanOutL, fanOut, h1, h2, h3, h4]

/-- Witness for C3 at concrete inputs. -/
theorem C3_witness :
    (searchYouTubeVideos envAllErr "a b").1 = [] ∧
    (getChannelVideos envAllErr "chan").1 = [] ∧
    (getSubredditPosts envAllErr "sub" "tok").1 = [] ∧
    (getRedditAccessToken initialTokenState envAllErr.now envAllErr.token).1 = none ∧
    (collect envAllErr "a" "b" ["chan"] ["sub"] initialTokenState).1.topVideos =
      (collect envAllErr "a" "b" ["chan"] ["sub"] initialTokenState).1.topVideos := by
  have h := C3 envAllErr envAllErr initialTokenState "a" "b" ["chan"] ["sub"]
  exact ⟨h.1 "a b" rfl, h.2.1 "chan" rfl, h.2.2.1 "sub" "tok" rfl,
    h.2.2.2.1 rfl (by decide), h.2.2.2.2.1 rfl⟩

/-!
## Claim C4
-/

/-- C4: credential-cache semantics.  With a truthy cached token and the
current time strictly before its expiry, the cached value is returned with the
cache untouched and no network call; otherwise (including at exactly the
expiry instant) the credential-exchange call is performed, and on success the
fresh token is stored with expiry `now + 50` minutes. -/
theorem C4 (st : TokenState) (now : Nat) (o : TokenOutcome) :
    (truthyOpt st.value = true ∧ now < st.expires →
      getRedditAccessToken st now o = (st.value, st, [])) ∧
    (¬(truthyOpt st.value = true ∧ now < st.expires) →
      (getRedditAccessToken st now o).2.2 = [NetCall.redditTokenCall] ∧
      ∀ t, o = .ok (some t) → t ≠ "" →
        getRedditAccessToken st now o =
          (some t, TokenState.mk (some t) (now + 50 * 60 * 1000),
           [NetCall.redditTokenCall])) := by
  constructor
  · intro h
    exact getRedditAccessToken_hit st now o h
  · intro hmiss
    constructor
    · unfold getRedditAccessToken
      rw [if_neg hmiss]
      cases o with
      | err => rfl
      | ok field =>
        dsimp only
        split <;> rfl
    · intro t ht hne
      subst ht
      unfold getRedditAccessToken
      rw [if_neg hmiss]
      have htr : truthyOpt (some t) = true := by simp [truthyOpt, hne]
      simp only [htr, if_true]

/-- Witness for C4: a cache hit returns the cached value with no call, and a
cache miss with a successful exchange stores the fresh token for 50 minutes. -/
theorem C4_witness :
    getRedditAccessToken (TokenState.mk (some "cached") 10) 5 .err =
      (some "cached", TokenState.mk (some "cached") 10, []) ∧
    getRedditAccessToken initialTokenState 7 (.ok (some "fresh")) =
      (some "fresh", TokenState.mk (some "fresh") (7 + 50 * 60 * 1000),
       [NetCall.redditTokenCall]) := by
  refine ⟨(C4 (TokenState.mk (some "cached") 10) 5 .err).1 (by decide),
    ((C4 initialTokenState 7 (.ok (some "fresh"))).2 (by decide)).2
      "fresh" rfl (by decide)⟩

/-!
## Claim C5
-/

/-- C5: when credential acquisition returns absent, the community branch
yields no `CommunityResult`s, no hot-listing call is attempted for any
community, the prompt's community field renders the placeholder, and the
other two branches are exactly what their own adapters produce. -/
theorem C5 (env : Env) (st : TokenState) (a g : String)
    (chans subs : List String)
    (hfail : (getRedditAccessToken st env.now env.token).1 = none) :
    (collect env a g chans subs st).1.redditPostsData = [] ∧
    communityField (collect env a g chans subs st).1.redditPostsData = "N/A" ∧
    (∀ s t, NetCall.redditHot s t ∉ (collect env a g chans subs st).2.2) ∧
    (collect env a g chans subs st).1.topVideos =
      (searchYouTubeVideos env (a ++ " " ++ g)).1 ∧
    (collect env a g chans subs st).1.competitorVideosData =
      (channelBranch env chans).1 := by
  rcases hr : getRedditAccessToken st env.now env.token with ⟨tok, st2, tcalls⟩
  have htok : tok = none := by rw [hr] at hfail; exact hfail
  subst htok
  have hcomm : (communityBranch env subs st).1 = [] := by
    simp [communityBranch, hr]
  have hcommCalls : (communityBranch env subs st).2.2 = tcalls := by
    simp [communityBranch, hr]
  have htcalls := getRedditAccessToken_calls st env.now env.token
  rw [hr] at htcalls
  simp only at htcalls
  refine ⟨?_, ?_, ?_, rfl, rfl⟩
  · rw [collect_community]; exact hcomm
  · rw [collect_community, hcomm]; rfl
  · intro s t hx
    rw [collect_calls, hcommCalls] at hx
    rcases List.mem_append.mp hx with h1 | h1
    · rcases List.mem_append.mp h1 with h2 | h2
      · simp [searchYouTubeVideos] at h2
      · simp only [channelBranch, List.mem_flatten, List.mem_map] at h2
        rcases h2 with ⟨calls, ⟨c, _, hcalls⟩, hmem⟩
        rw [← hcalls] at hmem
        exact redditHot_not_mem_getChannelVideos env c s t hmem
    · rcases htcalls with h | h
      · rw [h] at h1; cases h1
      · rw [h] at h1; simp at h1

/-- Witness for C5: the credential exchange fails on a cold cache. -/
theorem C5_witness :
    (collect envTokenFail "aud" "goal" ["chan"] ["sub"]
      initialTokenState).1.redditPostsData = [] ∧
    communityField (collect envTokenFail "aud" "goal" ["chan"] ["sub"]
      initialTokenState).1.redditPostsData = "N/A" := by
  have h := C5 envTokenFail initialTokenState "aud" "goal" ["chan"] ["sub"]
    (by decide)
  exact ⟨h.1, h.2.1⟩

/-!
## Claim C6
-/

/-- C6: order preservation under arbitrary completion interleavings.  For
every environment — in particular for every per-item latency assignment, i.e.
whatever order the concurrent per-item calls complete in — the channel branch
returns exactly one `ChannelResult` per input channel, in input order, and
(when a token was acquired) the community branch returns exactly one
`CommunityResult` per input subreddit, in input order. -/
theorem C6 (env : Env) (st : TokenState) (chans subs : List String) :
    (channelBranch env chans).1 =
      chans.map (fun c => ChannelResult.mk c (getChannelVideos env c).1) ∧
    (channelBranch env chans).1.map ChannelResult.channel = chans ∧
    (∀ t, (getRedditAccessToken st env.now env.token).1 = some t →
      (communityBranch env subs st).1 =
        subs.map (fun s => CommunityResult.mk s (getSubredditPosts env s t).1)) ∧
    (∀ t, (getRedditAccessToken st env.now env.token).1 = some t →
      (communityBranch env subs st).1.map CommunityResult.subreddit = subs) := by
  have hchan : (channelBranch env chans).1 =
      chans.map (fun c => ChannelResult.mk c (getChannelVideos env c).1) := by
    unfold channelBranch
    dsimp only
    exact fanOutL_eq_map env.chanLat _ chans
  have hcommOf : ∀ t, (getRedditAccessToken st env.now env.token).1 = some t →
      (communityBranch env subs st).1 =
        subs.map (fun s => CommunityResult.mk s (getSubredditPosts env s t).1) := by
    intro t ht
    have hne : t ≠ "" := getRedditAccessToken_some_ne_empty st env.now env.token t ht
    rcases hr : getRedditAccessToken st env.now env.token with ⟨tok, st2, tcalls⟩
    rw [hr] at ht
    simp only at ht
    subst ht
    simp only [communityBranch, hr]
    rw [if_neg hne]
    dsimp only
    exact fanOutL_eq_map env.subLat _ subs
  refine ⟨hchan, ?_, hcommOf, ?_⟩
  · rw [hchan, List.map_map]
    show chans.map (fun c => c) = chans
    exact List.map_id' chans
  · intro t ht
    rw [hcommOf t ht, List.map_map]
    show subs.map (fun s => s) = subs
    exact List.map_id' subs

/-- Witness for C6: two channels and two subreddits with distinct latencies
still come back in input order. -/
theorem C6_witness :
    ((channelBranch { envAllOk with chanLat := fun i => 10 - i }
        ["c1", "c2"]).1.map ChannelResult.channel = ["c1", "c2"]) ∧
    ((communityBranch { envAllOk with subLat := fun i => 10 - i }
        ["s1", "s2"] initialTokenState).1.map CommunityResult.subreddit
      = ["s1", "s2"]) := by
  refine ⟨(C6 { envAllOk with chanLat := fun i => 10 - i }
      initialTokenState ["c1", "c2"] ["s1", "s2"]).2.1,
    (C6 { envAllOk with subLat := fun i => 10 - i }
      initialTokenState ["c1", "c2"] ["s1", "s2"]).2.2.2 "tok1" (by decide)⟩

/-!
## Claim C7
-/

/-- C7: atomicity of the credential cache on failure.  Whenever the
credential-exchange call is actually performed (cache miss) and fails — a
thrown network/parse error, a response missing the token field, or a falsy
empty token — the function returns absent and the cached token state is
exactly what it was before the call. -/
theorem C7 (st : TokenState) (now : Nat) (o : TokenOutcome)
    (hmiss : ¬(truthyOpt st.value = true ∧ now < st.expires))
    (hfail : o = .err ∨ o = .ok none ∨ o = .ok (some "")) :
    (getRedditAccessToken st now o).1 = none ∧
    (getRedditAccessToken st now o).2.1 = st := by
  unfold getRedditAccessToken
  rw [if_neg hmiss]
  rcases hfail with h | h | h <;> subst h <;> exact ⟨rfl, rfl⟩

/-- Witness for C7 at concrete inputs. -/
theorem C7_witness :
    (getRedditAccessToken (TokenState.mk (some "old") 3) 9 (.ok none)).1 = none ∧
    (getRedditAccessToken (TokenState.mk (some "old") 3) 9 (.ok none)).2.1 =
      TokenState.mk (some "old") 3 :=
  C7 (TokenState.mk (some "old") 3) 9 (.ok none) (by decide) (Or.inr (Or.inl rfl))

/-!
## Claim C8
-/

/-- The master prompt the handler assembles for a given body, environment and
cache state (the `prompt` of line 238, with the collected data of line 187). -/
def requestPrompt (b : ReqBody) (env : Env) (st : TokenState) : String :=
  masterPrompt (jsToString b.audience) (jsToString b.goal)
    (collect env (jsToString b.audience) (jsToString b.goal)
      (asArr b.competitorYouTubeChannels) (asArr b.relevantSubreddits) st).1

/-- C8: for a valid, configured request, the generator call is the only step
whose failure reaches the caller — if the generative endpoint yields a
non-success status, a thrown error, or an envelope whose text cannot be
extracted, the handler responds 500 with the generic error message and the
generation-failure details; otherwise the generator's raw text is returned
unmodified with status 200. -/
theorem C8 (b : ReqBody) (ev : EnvVars) (env : Env) (st : TokenState)
    (hb : validBody b = true) (hc : envConfigured ev = true) :
    (∀ t, env.gemini (requestPrompt b env st) = .ok (some t) →
      (handler .post (some b) ev env st).1 = .ok200 t) ∧
    (env.gemini (requestPrompt b env st) = .err ∨
        env.gemini (requestPrompt b env st) = .notOk ∨
        env.gemini (requestPrompt b env st) = .ok none →
      (handler .post (some b) ev env st).1 =
        HandlerResponse.internalError500 "An internal server error occurred."
          geminiFailureMessage) := by
  unfold requestPrompt masterPrompt
  constructor
  · intro t ht
    simp [handler, hb, hc, callGeminiAPI, masterPrompt, ht]
  · intro h
    rcases h with h | h | h <;>
      simp [handler, hb, hc, callGeminiAPI, masterPrompt, h]

/-- Witness for C8: a fully successful pipeline returns the generator text
with 200, and a failing generator aborts with the 500 error envelope. -/
theorem C8_witness :
    (handler .post (some bodyOk) evOk envAllOk initialTokenState).1 =
      .ok200 "strategy" ∧
    (handler .post (some bodyOk) evOk envGeminiFail initialTokenState).1 =
      HandlerResponse.internalError500 "An internal server error occurred."
        geminiFailureMessage := by
  refine ⟨(C8 bodyOk evOk envAllOk initialTokenState (by decide) (by decide)).1
      "strategy" rfl,
    (C8 bodyOk evOk envGeminiFail initialTokenState (by decide) (by decide)).2
      (Or.inl rfl)⟩

/-!
## Claim C9
-/

/-- C9: a POST body missing `audience` or `goal`, or whose
`competitorYouTubeChannels` or `relevantSubreddits` is not an array, is
rejected with the 400 error body; the cache state is untouched and no
outbound call of any kind is started. -/
theorem C9 (b : ReqBody) (ev : EnvVars) (env : Env) (st : TokenState)
    (h : b.audience = .absent ∨ b.goal = .absent ∨
         isArray b.competitorYouTubeChannels = false ∨
         isArray b.relevantSubreddits = false) :
    handler .post (some b) ev env st =
      (HandlerResponse.badRequest400
        "Invalid request body. Ensure all required fields are present.",
       st, []) := by
  have hv : validBody b = false := by
    rcases h with h | h | h | h <;> simp [validBody, h, truthy]
  simp [handler, hv]

/-- Witness for C9 at a concrete invalid body (all fields absent). -/
theorem C9_witness :
    handler .post (some emptyBody) evOk envAllOk initialTokenState =
      (HandlerResponse.badRequest400
        "Invalid request body. Ensure all required fields are present.",
       initialTokenState, []) :=
  C9 emptyBody evOk envAllOk initialTokenState (Or.inl rfl)

/-!
## Claim C10
-/

/-- C10: validation is truthiness-based and precedes the configuration check.
An entirely absent body, or a body whose `audience` or `goal` is present but
falsy (e.g. the empty string), is rejected with 400 — with no calls and no
cache mutation — for every credential configuration, including a missing one;
and a 500 configuration error is only reachable for bodies that pass
validation (with credentials actually missing). -/
theorem C10 (ev : EnvVars) (env : Env) (st : TokenState) :
    handler .post none ev env st =
      (HandlerResponse.badRequest400
        "Invalid request body. Ensure all required fields are present.",
       st, []) ∧
    (∀ b, truthy b.audience = false ∨ truthy b.goal = false →
      handler .post (some b) ev env st =
        (HandlerResponse.badRequest400
          "Invalid request body. Ensure all required fields are present.",
         st, [])) ∧
    (∀ b msg, (handler .post (some b) ev env st).1 =
        HandlerResponse.configError500 msg →
      validBody b = true ∧ envConfigured ev = false) := by
  refine ⟨?_, ?_, ?_⟩
  · simp [handler, emptyBody, validBody, truthy]
  · intro b h
    have hv : validBody b = false := by
      rcases h with h | h <;> simp [validBody, h]
    simp [handler, hv]
  · intro b msg h
    by_cases hv : validBody b = true
    · by_cases hc : envConfigured ev = true
      · exfalso
        rcases hg : env.gemini (requestPrompt b env st) with _ | _ | tex
        · unfold requestPrompt masterPrompt at hg
          simp [handler, hv, hc, callGeminiAPI, masterPrompt, hg] at h
        · unfold requestPrompt masterPrompt at hg
          simp [handler, hv, hc, callGeminiAPI, masterPrompt, hg] at h
        · cases tex with
          | none =>
            unfold requestPrompt masterPrompt at hg
            simp [handler, hv, hc, callGeminiAPI, masterPrompt, hg] at h
          | some t =>
            unfold requestPrompt masterPrompt at hg
            simp [handler, hv, hc, callGeminiAPI, masterPrompt, hg] at h
      · refine ⟨hv, ?_⟩
        simpa using hc
    · exfalso
      have hvf : validBody b = false := by simpa using hv
      simp [handler, hvf] at h

/-- Witness for C10: an absent body and an empty-string `audience` are both
rejected with 400 even though the credentials are also missing. -/
theorem C10_witness :
    handler .post none (EnvVars.mk none none none none) envAllOk
        initialTokenState =
      (HandlerResponse.badRequest400
        "Invalid request body. Ensure all required fields are present.",
       initialTokenState, []) ∧
    handler .post (some (ReqBody.mk (.str "") (.str "g") (.arr []) (.arr [])))
        (EnvVars.mk none none none none) envAllOk initialTokenState =
      (HandlerResponse.badRequest400
        "Invalid request body. Ensure all required fields are present.",
       initialTokenState, []) := by
  refine ⟨(C10 (EnvVars.mk none none none none) envAllOk initialTokenState).1,
    (C10 (EnvVars.mk none none none none) envAllOk initialTokenState).2.1
      (ReqBody.mk (.str "") (.str "g") (.arr []) (.arr []))
      (Or.inl (by decide))⟩
